import Mathlib

/-!
Verification of the MSSQL MCP server core
(`src/mssql_mcp_server/server.py`).

The development is a shallow embedding of the Python module:

* Python string operations are mirrored by executable Lean functions
  (`pyJoin` is `str.join`, `splitCh` is `str.split` on a single
  character, `Cell.pyStr` is `str(...)` on the cell values a database
  row can carry).
* `clean_env_var` / `get_db_config` embed the configuration resolver;
  the process environment is a function `String → Option String`
  (`os.getenv`), and log output is collected in a list of the messages
  the Python code passes to the logger.
* The database driver is abstracted by a `DB` record: `connectErr`
  says whether `pyodbc.connect` raises (and with which message), and
  `exec` gives, per query text, either the driver error or the
  result set (`cursor.description` column names, `fetchall` rows,
  `cursor.rowcount`).  The request handlers `list_resources`,
  `read_resource` and `call_tool` are translated statement by
  statement; each returns its Python result (`Except` models a raised
  exception) together with the trace of connection events: the
  connection context manager entry (`Ev.openConn`), its exit on any
  path (`Ev.closeConn`, the gateway release of §4.2 of the design),
  and the explicit `conn.commit()` call (`Ev.commit`).
-/

deriving instance DecidableEq for Except

namespace MssqlMcp

/-- Python `sep.join(xs)`. -/
def pyJoin (sep : String) : List String → String
  | [] => ""
  | [x] => x
  | x :: y :: xs => x ++ sep ++ pyJoin sep (y :: xs)

/-- Python `s.split(c)` for a one-character separator, on character
lists: splits at every occurrence of `c`, keeping empty pieces. -/
def splitCh (c : Char) : List Char → List (List Char)
  | [] => [[]]
  | a :: as =>
    if a = c then [] :: splitCh c as
    else
      match splitCh c as with
      | [] => [[a]]
      | b :: bs => (a :: b) :: bs

/-- Boolean list-prefix test, used to decide substring occurrence. -/
def chPrefix : List Char → List Char → Bool
  | [], _ => true
  | _ :: _, [] => false
  | a :: as, b :: bs => if a = b then chPrefix as bs else false

/-- Boolean contiguous-sublist test. -/
def chInfix (pat : List Char) : List Char → Bool
  | [] => chPrefix pat []
  | a :: as => chPrefix pat (a :: as) || chInfix pat as

/-- `pat` occurs as a contiguous substring of `s`. -/
def strOccurs (pat s : String) : Bool := chInfix pat.data s.data

/-- Python `s.startswith(pre)`. -/
def pyStartsWith (s pre : String) : Bool := chPrefix pre.data s.data

/-- Python `s.endswith(suf)`. -/
def pyEndsWith (s suf : String) : Bool :=
  chPrefix suf.data.reverse s.data.reverse

/-- Python `s[1:-1]`: drop the first and the last character. -/
def pyStrip1 (s : String) : String := String.mk (s.data.drop 1).dropLast

/-- Python `s[n:]`. -/
def pyFrom (s : String) (n : Nat) : String := String.mk (s.data.drop n)

/-- The characters Python `str.strip()` removes (ASCII whitespace). -/
def pyIsSpace (c : Char) : Bool :=
  c = ' ' || c = '\t' || c = '\n' || c = '\r' || c = '\x0b' || c = '\x0c'

/-- Python `s.strip()` (ASCII whitespace). -/
def pyStrip (s : String) : String :=
  String.mk (((s.data.dropWhile pyIsSpace).reverse.dropWhile pyIsSpace).reverse)

/-- Python `s.upper()` (on the ASCII letters the SQL keywords use). -/
def pyUpper (s : String) : String := String.mk (s.data.map Char.toUpper)

/-- A database cell value, together with Python `str(...)` on it.
`vNone` is Python `None` (`str(None) = "None"`). -/
inductive Cell where
  | vStr (s : String)
  | vInt (n : Int)
  | vNone
deriving DecidableEq

/-- Python `str(...)` applied to a cell value. -/
def Cell.pyStr : Cell → String
  | .vStr s => s
  | .vInt n => toString n
  | .vNone => "None"

/-! ## Configuration resolver (`get_db_config`) -/

/-- `clean_env_var` from the source: reads `env_var` with a default
(`os.getenv(env_var, default)`) and, when the value is a non-empty
string enclosed in single or in double quotes, strips one layer of
the enclosing quotes (`value[1:-1]`). -/
def clean_env_var (env : String → Option String) (var : String)
    (dflt : Option String) : Option String :=
  let value := match env var with
    | some v => some v
    | none => dflt
  match value with
  | none => none
  | some v =>
    if v ≠ "" ∧ ((pyStartsWith v "\x27" ∧ pyEndsWith v "\x27") ∨
        (pyStartsWith v "\"" ∧ pyEndsWith v "\"")) then
      some (pyStrip1 v)
    else some v

/-- Plain `os.getenv(var, dflt)` — no quote stripping.  The source
uses this (not `clean_env_var`) for the four advanced options. -/
def getenvD (env : String → Option String) (var dflt : String) : String :=
  match env var with
  | some v => v
  | none => dflt

def defaultDriver : String := "ODBC Driver 18 for SQL Server"

/-- The `config` dict returned by `get_db_config` (the displayable
configuration object; `server` holds the Python `f"{server}:{port}"`). -/
structure DBCfg where
  driver : String
  server : String
  user : String
  database : String
  password : String
deriving DecidableEq

/-- Python f-string interpolation of an optional value
(`str(None) = "None"`). -/
def optStr : Option String → String
  | some s => s
  | none => "None"

/-- Python truthiness of an optional string, as used by
`all([user, password, database])`. -/
def truthy : Option String → Bool
  | some s => !s.data.isEmpty
  | none => false

/-- Python `c.isalnum()` (restricted to its ASCII behaviour). -/
def pyIsAlnum (c : Char) : Bool := c.isAlpha || c.isDigit

/-- `''.join([c for c in password if not c.isalnum()])` from the
password-debug log. -/
def specialChars (pw : String) : String :=
  String.mk (pw.data.filter (fun c => ! pyIsAlnum c))

/-- Python `s[:2]`. -/
def pyTake2 (s : String) : String := String.mk (s.data.take 2)

/-- Python `s[-2:]`. -/
def pyLastTwo (s : String) : String :=
  String.mk (s.data.drop (s.data.length - 2))

/-- The password-format debug message logged by `get_db_config` when
the password has more than four characters (source line 41). -/
def passwordHintMsg (pw : String) : String :=
  "Debug - Password format: begins with \x27" ++ pyTake2 pw ++
    "\x27, ends with \x27" ++ pyLastTwo pw ++
    "\x27, contains special chars: \x27" ++ specialChars pw ++ "\x27"

/-- `get_db_config` from the source.  Result: the raised
`ValueError` or the `(config, connection_string)` pair, together with
every message handed to the logger, in order. -/
def get_db_config (env : String → Option String) :
    Except String (DBCfg × String) × List String :=
  let driver := clean_env_var env "MSSQL_DRIVER" (some defaultDriver)
  let server := clean_env_var env "MSSQL_HOST" (some "localhost")
  let port := clean_env_var env "MSSQL_PORT" (some "1433")
  let user := clean_env_var env "MSSQL_USER" none
  let password := clean_env_var env "MSSQL_PASSWORD" none
  let database := clean_env_var env "MSSQL_DATABASE" none
  let pwLog :=
    match password with
    | some pw =>
      if 4 < pw.data.length then passwordHintMsg pw
      else "Password is too short or not provided!"
    | none => "Password is too short or not provided!"
  let baseLogs :=
    ["Reading database configuration from environment variables...",
     pwLog,
     "Using driver: " ++ optStr driver,
     "Connecting to server: " ++ optStr server ++ ":" ++ optStr port,
     "Database: " ++ optStr database ++ ", User: " ++ optStr user]
  if truthy user && truthy password && truthy database then
    let connection_string := pyJoin ";"
      ["Driver=\x7b" ++ optStr driver ++ "\x7d",
       "Server=" ++ optStr server ++ "," ++ optStr port,
       "Database=" ++ optStr database,
       "UID=" ++ optStr user,
       "PWD=" ++ optStr password,
       "TrustServerCertificate=" ++ getenvD env "TrustServerCertificate" "yes",
       "Encrypt=" ++ getenvD env "Encrypt" "yes",
       "Connection Timeout=" ++ getenvD env "ConnectionTimeout" "60",
       "Login Timeout=" ++ getenvD env "LoginTimeout" "60",
       "MARS_Connection=yes"]
    (.ok ({driver := optStr driver,
           server := optStr server ++ ":" ++ optStr port,
           user := optStr user,
           database := optStr database,
           password := "********"}, connection_string),
     baseLogs ++
       ["Connection string format: Driver=\x7b...\x7d;Server=...;Database=...;UID=...;PWD=***;..."])
  else
    (.error "Missing required database configuration",
     baseLogs ++
       ["Missing required database configuration. Please check environment variables:",
        "MSSQL_USER, MSSQL_PASSWORD, and MSSQL_DATABASE are required"])

/-! ## The abstract database driver and the request handlers -/

/-- The result of one successful `cursor.execute`: column names from
`cursor.description`, the `fetchall()` rows, and `cursor.rowcount`. -/
structure QueryResult where
  columns : List String
  rows : List (List Cell)
  rowcount : Int
deriving DecidableEq

/-- The abstract driver behind one request: whether
`pyodbc.connect(connection_string)` raises (and its message), and the
behaviour of `cursor.execute` per query text. -/
structure DB where
  connectErr : Option String
  exec : String → Except String QueryResult

/-- Connection events traced by a handler: context-manager entry of
the connection, its release on exit (any path), and the explicit
`conn.commit()`. -/
inductive Ev where
  | openConn
  | closeConn
  | commit
deriving DecidableEq

/-- An MCP `Resource` as constructed by `list_resources`. -/
structure Resource where
  uri : String
  name : String
  mimeType : String
  description : String
deriving DecidableEq

/-- An MCP `TextContent` payload (`type` is always `"text"`). -/
structure TextContent where
  type : String
  text : String
deriving DecidableEq

/-- Python `table[0]` interpolated into an f-string / joined by
`"\n".join`: first component of a fetched row, stringified.  (The
catalog query always yields one-column rows.) -/
def cell0Str (row : List Cell) : String := (row.headD Cell.vNone).pyStr

/-- The `Resource(...)` literal built per table in `list_resources`. -/
def mkResource (t : String) : Resource :=
  { uri := "mssql://" ++ t ++ "/data"
    name := "Table: " ++ t
    mimeType := "text/plain"
    description := "Data in table: " ++ t }

/-- The base-table catalog query issued by `list_resources` and by the
`SHOW TABLES` shim in `call_tool`. -/
def catalogQuery : String :=
  "SELECT TABLE_NAME FROM INFORMATION_SCHEMA.TABLES WHERE TABLE_TYPE = \x27BASE TABLE\x27;"

/-- `",".join(map(str, row))` — one result row serialized. -/
def serializeRow (row : List Cell) : String :=
  pyJoin "," (row.map Cell.pyStr)

/-- `"\n".join([",".join(columns)] + result)` — header line followed
by the serialized rows (shared verbatim by `read_resource` and the
SELECT branch of `call_tool`). -/
def tabularText (r : QueryResult) : String :=
  pyJoin "\n" (pyJoin "," r.columns :: r.rows.map serializeRow)

/-- `list_resources` from the source.  A `pyodbc.Error` from
`connect` or from the catalog query is caught and degraded to the
empty list; a connection that was opened is released by the context
manager on both paths. -/
def list_resources (db : DB) : Except String (List Resource) × List Ev :=
  match db.connectErr with
  | some _ => (.ok [], [])
  | none =>
    match db.exec catalogQuery with
    | .ok r =>
      (.ok (r.rows.map (fun row => mkResource (cell0Str row))),
       [.openConn, .closeConn])
    | .error _ => (.ok [], [.openConn, .closeConn])

/-- Python `uri_str[8:].split('/')[0]`: the table-name segment of a
resource address. -/
def firstSeg (s : String) : String :=
  String.mk (s.data.takeWhile (fun c => c != '/'))

/-- `read_resource` from the source.  The scheme is validated first
(`ValueError` on a non-`mssql://` address); a `pyodbc.Error` from
`connect` or from the row-capped select is re-raised as
`RuntimeError(f"Database error: {e}")`. -/
def read_resource (db : DB) (uri : String) : Except String String × List Ev :=
  if pyStartsWith uri "mssql://" then
    let table := firstSeg (pyFrom uri 8)
    match db.connectErr with
    | some e => (.error ("Database error: " ++ e), [])
    | none =>
      match db.exec ("SELECT TOP 100 * FROM " ++ table) with
      | .ok r => (.ok (tabularText r), [.openConn, .closeConn])
      | .error e => (.error ("Database error: " ++ e), [.openConn, .closeConn])
  else (.error ("Invalid URI scheme: " ++ uri), [])

/-- `call_tool` from the source.  Tool-name and argument validation
raise (`ValueError`); past that point every exception from connecting
or executing is caught (`except Exception`) and converted to a text
payload.  The executed statement is classified after execution:
`SHOW TABLES` shim, `SELECT` serialization, or commit + rowcount. -/
def call_tool (db : DB) (database nm : String) (query? : Option String) :
    Except String (List TextContent) × List Ev :=
  if nm ≠ "execute_sql" then (.error ("Unknown tool: " ++ nm), [])
  else
    match query? with
    | none => (.error "Query is required", [])
    | some query =>
      if query = "" then (.error "Query is required", [])
      else
        match db.connectErr with
        | some e =>
          (.ok [{type := "text", text := "Error executing query: " ++ e}], [])
        | none =>
          match db.exec query with
          | .error e =>
            (.ok [{type := "text", text := "Error executing query: " ++ e}],
             [.openConn, .closeConn])
          | .ok r =>
            if pyUpper (pyStrip query) = "SHOW TABLES" then
              match db.exec catalogQuery with
              | .error e =>
                (.ok [{type := "text", text := "Error executing query: " ++ e}],
                 [.openConn, .closeConn])
              | .ok rt =>
                (.ok [{type := "text",
                       text := pyJoin "\n"
                         (("Tables_in_" ++ database) :: rt.rows.map cell0Str)}],
                 [.openConn, .closeConn])
            else if pyStartsWith (pyUpper (pyStrip query)) "SELECT" then
              (.ok [{type := "text", text := tabularText r}],
               [.openConn, .closeConn])
            else
              (.ok [{type := "text",
                     text := "Query executed successfully. Rows affected: " ++
                       toString r.rowcount}],
               [.openConn, .commit, .closeConn])

/-! ## Supporting lemmas -/

/-- Number of occurrences of a character in a character list. -/
def countCh (c : Char) : List Char → Nat
  | [] => 0
  | a :: as => (if a = c then 1 else 0) + countCh c as

theorem data_append (s t : String) : (s ++ t).data = s.data ++ t.data := rfl

theorem mk_data (s : String) : String.mk s.data = s := rfl

theorem countCh_append (c : Char) (a b : List Char) :
    countCh c (a ++ b) = countCh c a + countCh c b := by
  induction a with
  | nil => simp [countCh]
  | cons x xs ih => simp [countCh, ih]; omega

theorem countCh_pos (c : Char) (l : List Char) (h : c ∈ l) : 0 < countCh c l := by
  induction l with
  | nil => cases h
  | cons x xs ih =>
    rcases List.mem_cons.mp h with h1 | h2
    · simp [countCh, h1.symm]
    · have := ih h2
      simp [countCh]
      omega

theorem countCh_eq_zero (c : Char) (l : List Char) (h : c ∉ l) : countCh c l = 0 := by
  induction l with
  | nil => rfl
  | cons x xs ih =>
    have hx : x ≠ c := fun e => h (e ▸ List.mem_cons_self x xs)
    have hxs : c ∉ xs := fun m => h (List.mem_cons_of_mem _ m)
    simp [countCh, hx, ih hxs]

theorem splitCh_ne_nil (c : Char) (l : List Char) : splitCh c l ≠ [] := by
  induction l with
  | nil => simp [splitCh]
  | cons a as ih =>
    simp only [splitCh]
    split
    · simp
    · rcases h : splitCh c as with _ | ⟨b, bs⟩ <;> simp

theorem length_splitCh (c : Char) (l : List Char) :
    (splitCh c l).length = countCh c l + 1 := by
  induction l with
  | nil => simp [splitCh, countCh]
  | cons a as ih =>
    simp only [splitCh, countCh]
    split
    · simp [ih]; omega
    · rcases h : splitCh c as with _ | ⟨b, bs⟩
      · exact absurd h (splitCh_ne_nil c as)
      · rw [h] at ih
        simp at ih ⊢
        omega

theorem splitCh_of_not_mem (c : Char) (l : List Char) (h : c ∉ l) :
    splitCh c l = [l] := by
  induction l with
  | nil => rfl
  | cons a as ih =>
    have ha : a ≠ c := fun e => h (e ▸ List.mem_cons_self a as)
    have has : c ∉ as := fun m => h (List.mem_cons_of_mem _ m)
    simp only [splitCh, if_neg ha, ih has]

theorem splitCh_append (c : Char) (a rest : List Char) (h : c ∉ a) :
    splitCh c (a ++ c :: rest) = a :: splitCh c rest := by
  induction a with
  | nil => simp [splitCh]
  | cons x xs ih =>
    have hx : x ≠ c := fun e => h (e ▸ List.mem_cons_self x xs)
    have hxs : c ∉ xs := fun m => h (List.mem_cons_of_mem _ m)
    show splitCh c (x :: (xs ++ c :: rest)) = (x :: xs) :: splitCh c rest
    simp only [splitCh, if_neg hx]
    rw [ih hxs]

theorem splitCh_pyJoin (c : Char) (sep : String) (hs : sep.data = [c]) :
    ∀ xs : List String, xs ≠ [] → (∀ x ∈ xs, c ∉ x.data) →
      splitCh c (pyJoin sep xs).data = xs.map String.data := by
  intro xs
  induction xs with
  | nil => intro h; exact absurd rfl h
  | cons x ys ih =>
    intro _ hf
    cases ys with
    | nil =>
      simpa [pyJoin] using splitCh_of_not_mem c x.data (hf x (by simp))
    | cons y zs =>
      have hdata : (x ++ sep ++ pyJoin sep (y :: zs)).data
          = x.data ++ c :: (pyJoin sep (y :: zs)).data := by
        rw [data_append, data_append, hs]
        simp
      simp only [pyJoin, hdata]
      rw [splitCh_append c _ _ (hf x (by simp))]
      rw [ih (by simp) (fun z hz => hf z (by simp [hz]))]
      simp

theorem countCh_pyJoin (c : Char) (sep : String) (hs : sep.data = [c]) :
    ∀ xs : List String, xs ≠ [] →
      countCh c (pyJoin sep xs).data + 1
        = (xs.map (fun x => countCh c x.data)).sum + xs.length := by
  intro xs
  induction xs with
  | nil => intro h; exact absurd rfl h
  | cons x ys ih =>
    intro _
    cases ys with
    | nil => simp [pyJoin]
    | cons y zs =>
      have hdata : (x ++ sep ++ pyJoin sep (y :: zs)).data
          = x.data ++ c :: (pyJoin sep (y :: zs)).data := by
        rw [data_append, data_append, hs]
        simp
      have ihy := ih (by simp)
      have hx : countCh c (pyJoin sep (x :: y :: zs)).data
          = countCh c x.data + 1 + countCh c (pyJoin sep (y :: zs)).data := by
        show countCh c (x ++ sep ++ pyJoin sep (y :: zs)).data = _
        rw [hdata, countCh_append]
        simp [countCh]
        omega
      rw [List.map_cons, List.sum_cons, List.length_cons, hx]
      omega

theorem mem_pyJoin_data (c : Char) (sep : String) :
    ∀ xs : List String, ∀ x ∈ xs, c ∈ x.data → c ∈ (pyJoin sep xs).data := by
  intro xs
  induction xs with
  | nil => intro x hx; cases hx
  | cons a ys ih =>
    intro x hx hc
    cases ys with
    | nil =>
      rcases List.mem_cons.mp hx with h | h
      · subst h; simpa [pyJoin] using hc
      · cases h
    | cons y zs =>
      rcases List.mem_cons.mp hx with h | h
      · subst h
        simp only [pyJoin, data_append, List.mem_append]
        exact Or.inl (Or.inl hc)
      · simp only [pyJoin, data_append, List.mem_append]
        exact Or.inr (ih x h hc)

theorem not_mem_pyJoin (c : Char) (sep : String) (hsep : c ∉ sep.data) :
    ∀ xs : List String, (∀ x ∈ xs, c ∉ x.data) → c ∉ (pyJoin sep xs).data := by
  intro xs
  induction xs with
  | nil => intro _ h; cases h
  | cons a ys ih =>
    intro hf
    cases ys with
    | nil => exact hf a (by simp)
    | cons y zs =>
      intro hmem
      rcases List.mem_append.mp ((data_append _ _) ▸ hmem) with h1 | h2
      · rcases List.mem_append.mp ((data_append _ _) ▸ h1) with h3 | h4
        · exact hf a (by simp) h3
        · exact hsep h4
      · exact ih (fun z hz => hf z (by simp [hz])) h2

theorem truthy_of_ne (s : String) (h : s ≠ "") : truthy (some s) = true := by
  cases s with
  | mk d =>
    cases d with
    | nil => exact absurd rfl h
    | cons a as => rfl

/-! ## Branch equations for the handlers -/

theorem list_resources_connect_error (db : DB) (e : String)
    (hc : db.connectErr = some e) : list_resources db = (.ok [], []) := by
  simp [list_resources, hc]

theorem list_resources_exec_error (db : DB) (e : String)
    (hc : db.connectErr = none) (hx : db.exec catalogQuery = .error e) :
    list_resources db = (.ok [], [Ev.openConn, Ev.closeConn]) := by
  simp [list_resources, hc, hx]

theorem list_resources_ok (db : DB) (r : QueryResult)
    (hc : db.connectErr = none) (hx : db.exec catalogQuery = .ok r) :
    list_resources db
      = (.ok (r.rows.map (fun row => mkResource (cell0Str row))),
         [Ev.openConn, Ev.closeConn]) := by
  simp [list_resources, hc, hx]

theorem read_resource_bad_scheme (db : DB) (uri : String)
    (hu : pyStartsWith uri "mssql://" = false) :
    read_resource db uri = (.error ("Invalid URI scheme: " ++ uri), []) := by
  simp [read_resource, hu]

theorem read_resource_connect_error (db : DB) (uri e : String)
    (hu : pyStartsWith uri "mssql://" = true) (hc : db.connectErr = some e) :
    read_resource db uri = (.error ("Database error: " ++ e), []) := by
  simp [read_resource, hu, hc]

theorem read_resource_exec_error (db : DB) (uri e : String)
    (hu : pyStartsWith uri "mssql://" = true) (hc : db.connectErr = none)
    (hx : db.exec ("SELECT TOP 100 * FROM " ++ firstSeg (pyFrom uri 8)) = .error e) :
    read_resource db uri
      = (.error ("Database error: " ++ e), [Ev.openConn, Ev.closeConn]) := by
  simp [read_resource, hu, hc, hx]

theorem read_resource_ok (db : DB) (uri : String) (r : QueryResult)
    (hu : pyStartsWith uri "mssql://" = true) (hc : db.connectErr = none)
    (hx : db.exec ("SELECT TOP 100 * FROM " ++ firstSeg (pyFrom uri 8)) = .ok r) :
    read_resource db uri = (.ok (tabularText r), [Ev.openConn, Ev.closeConn]) := by
  simp [read_resource, hu, hc, hx]

theorem call_tool_connect_error (db : DB) (database q e : String)
    (hq : q ≠ "") (hc : db.connectErr = some e) :
    call_tool db database "execute_sql" (some q)
      = (.ok [{type := "text", text := "Error executing query: " ++ e}], []) := by
  simp [call_tool, hq, hc]

theorem call_tool_exec_error (db : DB) (database q e : String)
    (hq : q ≠ "") (hc : db.connectErr = none) (hx : db.exec q = .error e) :
    call_tool db database "execute_sql" (some q)
      = (.ok [{type := "text", text := "Error executing query: " ++ e}],
         [Ev.openConn, Ev.closeConn]) := by
  simp [call_tool, hq, hc, hx]

theorem call_tool_show_tables_ok (db : DB) (database q : String)
    (r0 rt : QueryResult) (hq : q ≠ "")
    (hshow : pyUpper (pyStrip q) = "SHOW TABLES")
    (hc : db.connectErr = none) (h0 : db.exec q = .ok r0)
    (hcat : db.exec catalogQuery = .ok rt) :
    call_tool db database "execute_sql" (some q)
      = (.ok [{type := "text",
               text := pyJoin "\n"
                 (("Tables_in_" ++ database) :: rt.rows.map cell0Str)}],
         [Ev.openConn, Ev.closeConn]) := by
  simp [call_tool, hq, hc, h0, hshow, hcat]

theorem call_tool_show_tables_catalog_error (db : DB) (database q e : String)
    (r0 : QueryResult) (hq : q ≠ "")
    (hshow : pyUpper (pyStrip q) = "SHOW TABLES")
    (hc : db.connectErr = none) (h0 : db.exec q = .ok r0)
    (hcat : db.exec catalogQuery = .error e) :
    call_tool db database "execute_sql" (some q)
      = (.ok [{type := "text", text := "Error executing query: " ++ e}],
         [Ev.openConn, Ev.closeConn]) := by
  simp [call_tool, hq, hc, h0, hshow, hcat]

theorem call_tool_select (db : DB) (database q : String) (r : QueryResult)
    (hsel : pyStartsWith (pyUpper (pyStrip q)) "SELECT" = true)
    (hc : db.connectErr = none) (h0 : db.exec q = .ok r) :
    call_tool db database "execute_sql" (some q)
      = (.ok [{type := "text", text := tabularText r}],
         [Ev.openConn, Ev.closeConn]) := by
  have hq : q ≠ "" := by
    intro h
    rw [h] at hsel
    exact absurd hsel (by decide)
  have hshow : pyUpper (pyStrip q) ≠ "SHOW TABLES" := by
    intro h
    rw [h] at hsel
    exact absurd hsel (by decide)
  simp [call_tool, hq, hc, h0, hshow, hsel]

theorem call_tool_other (db : DB) (database q : String) (r : QueryResult)
    (hq : q ≠ "")
    (hshow : pyUpper (pyStrip q) ≠ "SHOW TABLES")
    (hsel : pyStartsWith (pyUpper (pyStrip q)) "SELECT" = false)
    (hc : db.connectErr = none) (h0 : db.exec q = .ok r) :
    call_tool db database "execute_sql" (some q)
      = (.ok [{type := "text",
               text := "Query executed successfully. Rows affected: " ++
                 toString r.rowcount}],
         [Ev.openConn, Ev.commit, Ev.closeConn]) := by
  simp [call_tool, hq, hc, h0, hshow, hsel]

/-- Every trace `list_resources` can produce. -/
theorem list_resources_trace (db : DB) :
    (list_resources db).2 = [] ∨
      (list_resources db).2 = [Ev.openConn, Ev.closeConn] := by
  rcases hc : db.connectErr with _ | e
  · rcases hx : db.exec catalogQuery with e | r
    · exact Or.inr (by simp [list_resources, hc, hx])
    · exact Or.inr (by simp [list_resources, hc, hx])
  · exact Or.inl (by simp [list_resources, hc])

/-- Every trace `read_resource` can produce. -/
theorem read_resource_trace (db : DB) (uri : String) :
    (read_resource db uri).2 = [] ∨
      (read_resource db uri).2 = [Ev.openConn, Ev.closeConn] := by
  rcases hu : pyStartsWith uri "mssql://" with _ | _
  · exact Or.inl (by simp [read_resource, hu])
  · rcases hc : db.connectErr with _ | e
    · rcases hx : db.exec ("SELECT TOP 100 * FROM " ++ firstSeg (pyFrom uri 8))
        with e | r
      · exact Or.inr (by simp [read_resource, hu, hc, hx])
      · exact Or.inr (by simp [read_resource, hu, hc, hx])
    · exact Or.inl (by simp [read_resource, hu, hc])

/-- Every trace `call_tool` can produce. -/
theorem call_tool_trace (db : DB) (database nm : String) (q? : Option String) :
    (call_tool db database nm q?).2 = [] ∨
      (call_tool db database nm q?).2 = [Ev.openConn, Ev.closeConn] ∨
      (call_tool db database nm q?).2
        = [Ev.openConn, Ev.commit, Ev.closeConn] := by
  by_cases hnm : nm = "execute_sql"
  · subst hnm
    rcases q? with _ | q
    · exact Or.inl (by simp [call_tool])
    · by_cases hq : q = ""
      · exact Or.inl (by simp [call_tool, hq])
      · rcases hc : db.connectErr with _ | e
        · rcases hx : db.exec q with e | r
          · exact Or.inr (Or.inl (by simp [call_tool, hq, hc, hx]))
          · by_cases hshow : pyUpper (pyStrip q) = "SHOW TABLES"
            · rcases hcat : db.exec catalogQuery with e | rt
              · exact Or.inr (Or.inl
                  (by simp [call_tool, hq, hc, hx, hshow, hcat]))
              · exact Or.inr (Or.inl
                  (by simp [call_tool, hq, hc, hx, hshow, hcat]))
            · by_cases hsel : pyStartsWith (pyUpper (pyStrip q)) "SELECT" = true
              · exact Or.inr (Or.inl
                  (by simp [call_tool, hq, hc, hx, hshow, hsel]))
              · exact Or.inr (Or.inr
                  (by simp [call_tool, hq, hc, hx, hshow, hsel]))
        · exact Or.inl (by simp [call_tool, hq, hc])
  · exact Or.inl (by simp [call_tool, hnm])

/-! ## Claims -/

/-- C1: for every invocation of `list_resources`, `read_resource` or
`call_tool`, and for every outcome (success, database error, or any
other exception raised mid-operation), the trace contains exactly as
many connection releases as connection opens, and at most one
connection is opened — each opened connection is closed exactly once
before the operation returns or raises. -/
theorem connections_closed_exactly_once (db : DB) (uri database nm : String)
    (q? : Option String) :
    ((list_resources db).2.count Ev.closeConn
        = (list_resources db).2.count Ev.openConn ∧
      (list_resources db).2.count Ev.openConn ≤ 1) ∧
    ((read_resource db uri).2.count Ev.closeConn
        = (read_resource db uri).2.count Ev.openConn ∧
      (read_resource db uri).2.count Ev.openConn ≤ 1) ∧
    ((call_tool db database nm q?).2.count Ev.closeConn
        = (call_tool db database nm q?).2.count Ev.openConn ∧
      (call_tool db database nm q?).2.count Ev.openConn ≤ 1) := by
  refine ⟨?_, ?_, ?_⟩
  · rcases list_resources_trace db with h | h <;> rw [h] <;> exact by decide
  · rcases read_resource_trace db uri with h | h <;> rw [h] <;> exact by decide
  · rcases call_tool_trace db database nm q? with h | h | h <;> rw [h] <;>
      exact by decide

/-- C2: a `call_tool` query that after trimming and upper-casing
starts with "SELECT" never commits the transaction (on any outcome),
and on successful execution its result is the single text payload of
the comma-joined column names followed by one comma-joined line per
row — the tabular serialization, which carries no rows-affected
report. -/
theorem select_never_commits (db : DB) (database q : String)
    (hsel : pyStartsWith (pyUpper (pyStrip q)) "SELECT" = true) :
    Ev.commit ∉ (call_tool db database "execute_sql" (some q)).2 ∧
    ∀ r : QueryResult, db.connectErr = none → db.exec q = .ok r →
      (call_tool db database "execute_sql" (some q)).1
        = .ok [{type := "text", text := tabularText r}] := by
  have hq : q ≠ "" := by
    intro h
    rw [h] at hsel
    exact absurd hsel (by decide)
  constructor
  · rcases hc : db.connectErr with _ | e
    · rcases hx : db.exec q with e | r
      · rw [call_tool_exec_error db database q e hq hc hx]
        show Ev.commit ∉ [Ev.openConn, Ev.closeConn]
        decide
      · rw [call_tool_select db database q r hsel hc hx]
        show Ev.commit ∉ [Ev.openConn, Ev.closeConn]
        decide
    · rw [call_tool_connect_error db database q e hq hc]
      show Ev.commit ∉ ([] : List Ev)
      decide
  · intro r hc hx
    rw [call_tool_select db database q r hsel hc hx]

/-- The driver used in the C2 witness: `SELECT 1` yields one row. -/
def dbSelW : DB :=
  ⟨none, fun q =>
    if q = "SELECT 1" then .ok ⟨["x"], [[Cell.vInt 1]], -1⟩
    else .error "boom"⟩

/-- C2 witness at the concrete query `"SELECT 1"`. -/
theorem select_never_commits_witness :
    pyStartsWith (pyUpper (pyStrip "SELECT 1")) "SELECT" = true ∧
    Ev.commit ∉ (call_tool dbSelW "db" "execute_sql" (some "SELECT 1")).2 ∧
    (call_tool dbSelW "db" "execute_sql" (some "SELECT 1")).1
      = .ok [{type := "text", text := tabularText ⟨["x"], [[Cell.vInt 1]], -1⟩}] :=
  ⟨by decide,
   (select_never_commits dbSelW "db" "SELECT 1" (by decide)).1,
   (select_never_commits dbSelW "db" "SELECT 1" (by decide)).2
     ⟨["x"], [[Cell.vInt 1]], -1⟩ rfl (by decide)⟩

/-- C3: a `call_tool` query that is neither `SHOW TABLES` nor starts
with "SELECT" (after trimming and upper-casing) and whose execution
succeeds commits the transaction exactly once and reports
`Query executed successfully. Rows affected: N` with `N` the
driver-reported `cursor.rowcount` — also when that count is `0`. -/
theorem non_select_commits_and_reports_rowcount (db : DB) (database q : String)
    (r : QueryResult) (hq : q ≠ "")
    (hshow : pyUpper (pyStrip q) ≠ "SHOW TABLES")
    (hsel : pyStartsWith (pyUpper (pyStrip q)) "SELECT" = false)
    (hc : db.connectErr = none) (hx : db.exec q = .ok r) :
    (call_tool db database "execute_sql" (some q)).1
      = .ok [{type := "text",
              text := "Query executed successfully. Rows affected: " ++
                toString r.rowcount}] ∧
    (call_tool db database "execute_sql" (some q)).2.count Ev.commit = 1 := by
  rw [call_tool_other db database q r hq hshow hsel hc hx]
  refine ⟨rfl, ?_⟩
  show [Ev.openConn, Ev.commit, Ev.closeConn].count Ev.commit = 1
  decide

/-- The driver used in the C3 witness: a `DELETE` that affects `0`
rows. -/
def dbDelW : DB :=
  ⟨none, fun q =>
    if q = "DELETE FROM t" then .ok ⟨[], [], 0⟩
    else .error "boom"⟩

/-- C3 witness: a zero-row `DELETE` still reports `Rows affected: 0`
and commits once. -/
theorem non_select_commits_and_reports_rowcount_witness :
    pyStartsWith (pyUpper (pyStrip "DELETE FROM t")) "SELECT" = false ∧
    (call_tool dbDelW "db" "execute_sql" (some "DELETE FROM t")).1
      = .ok [{type := "text",
              text := "Query executed successfully. Rows affected: 0"}] ∧
    (call_tool dbDelW "db" "execute_sql" (some "DELETE FROM t")).2.count Ev.commit
      = 1 :=
  ⟨by decide,
   ((non_select_commits_and_reports_rowcount dbDelW "db" "DELETE FROM t"
      ⟨[], [], 0⟩ (by decide) (by decide) (by decide) rfl (by decide)).1),
   ((non_select_commits_and_reports_rowcount dbDelW "db" "DELETE FROM t"
      ⟨[], [], 0⟩ (by decide) (by decide) (by decide) rfl (by decide)).2)⟩

/-- C4: for a `call_tool` invocation with the registered tool name and
a non-empty query, the dispatcher always returns a normal payload — in
particular a connect failure or an execution failure is converted into
a text payload carrying the error description, and no such exception
crosses the `call_tool` boundary. -/
theorem call_tool_errors_become_payload (db : DB) (database q : String)
    (hq : q ≠ "") :
    (∃ ts, (call_tool db database "execute_sql" (some q)).1 = .ok ts) ∧
    (∀ e, db.connectErr = some e →
      (call_tool db database "execute_sql" (some q)).1
        = .ok [{type := "text", text := "Error executing query: " ++ e}]) ∧
    (∀ e, db.connectErr = none → db.exec q = .error e →
      (call_tool db database "execute_sql" (some q)).1
        = .ok [{type := "text", text := "Error executing query: " ++ e}]) := by
  refine ⟨?_, ?_, ?_⟩
  · rcases hc : db.connectErr with _ | e
    · rcases hx : db.exec q with e | r
      · exact ⟨_, by rw [call_tool_exec_error db database q e hq hc hx]⟩
      · by_cases hshow : pyUpper (pyStrip q) = "SHOW TABLES"
        · rcases hcat : db.exec catalogQuery with e | rt
          · exact ⟨_, by rw [call_tool_show_tables_catalog_error
              db database q e r hq hshow hc hx hcat]⟩
          · exact ⟨_, by rw [call_tool_show_tables_ok
              db database q r rt hq hshow hc hx hcat]⟩
        · by_cases hsel : pyStartsWith (pyUpper (pyStrip q)) "SELECT" = true
          · exact ⟨_, by rw [call_tool_select db database q r hsel hc hx]⟩
          · exact ⟨_, by rw [call_tool_other db database q r hq hshow
              (by simpa using hsel) hc hx]⟩
    · exact ⟨_, by rw [call_tool_connect_error db database q e hq hc]⟩
  · intro e hc
    rw [call_tool_connect_error db database q e hq hc]
  · intro e hc hx
    rw [call_tool_exec_error db database q e hq hc hx]

/-- The driver used in the C4 witness: every statement fails. -/
def dbFailW : DB := ⟨none, fun _ => .error "table missing"⟩

/-- C4 witness: a failing `DROP TABLE` comes back as a successful
error-text payload. -/
theorem call_tool_errors_become_payload_witness :
    ("DROP TABLE x" : String) ≠ "" ∧
    (call_tool dbFailW "db" "execute_sql" (some "DROP TABLE x")).1
      = .ok [{type := "text", text := "Error executing query: table missing"}] :=
  ⟨by decide,
   (call_tool_errors_become_payload dbFailW "db" "DROP TABLE x"
      (by decide)).2.2 "table missing" rfl (by decide)⟩

/-- C5: a `call_tool` query equal to `SHOW TABLES` after trimming and
upper-casing (when both the verbatim execution and the catalog query
succeed) returns the header line `Tables_in_<database>` followed by
one base-table name per line, and those names are exactly the table
set `list_resources` enumerates. -/
theorem show_tables_lists_tables (db : DB) (database q : String)
    (r0 rt : QueryResult) (hshow : pyUpper (pyStrip q) = "SHOW TABLES")
    (hc : db.connectErr = none) (h0 : db.exec q = .ok r0)
    (hcat : db.exec catalogQuery = .ok rt) :
    (call_tool db database "execute_sql" (some q)).1
      = .ok [{type := "text",
              text := pyJoin "\n"
                (("Tables_in_" ++ database) :: rt.rows.map cell0Str)}] ∧
    (list_resources db).1 = .ok ((rt.rows.map cell0Str).map mkResource) := by
  have hq : q ≠ "" := by
    intro h
    rw [h] at hshow
    exact absurd hshow (by decide)
  constructor
  · rw [call_tool_show_tables_ok db database q r0 rt hq hshow hc h0 hcat]
  · rw [list_resources_ok db rt hc hcat]
    simp [List.map_map, Function.comp]

/-- The driver used in the C5 witness: two base tables; `SHOW TABLES`
itself executes without error. -/
def dbShowW : DB :=
  ⟨none, fun q =>
    if q = catalogQuery then
      .ok ⟨["TABLE_NAME"], [[Cell.vStr "Customers"], [Cell.vStr "Orders"]], -1⟩
    else if q = "SHOW TABLES" then .ok ⟨[], [], -1⟩
    else .error "boom"⟩

/-- C5 witness on a two-table catalog. -/
theorem show_tables_lists_tables_witness :
    pyUpper (pyStrip "SHOW TABLES") = "SHOW TABLES" ∧
    (call_tool dbShowW "mydb" "execute_sql" (some "SHOW TABLES")).1
      = .ok [{type := "text", text := "Tables_in_mydb\nCustomers\nOrders"}] ∧
    (list_resources dbShowW).1
      = .ok [mkResource "Customers", mkResource "Orders"] :=
  ⟨by decide,
   (show_tables_lists_tables dbShowW "mydb" "SHOW TABLES" ⟨[], [], -1⟩
      ⟨["TABLE_NAME"], [[Cell.vStr "Customers"], [Cell.vStr "Orders"]], -1⟩
      (by decide) rfl (by decide) (by decide)).1,
   (show_tables_lists_tables dbShowW "mydb" "SHOW TABLES" ⟨[], [], -1⟩
      ⟨["TABLE_NAME"], [[Cell.vStr "Customers"], [Cell.vStr "Orders"]], -1⟩
      (by decide) rfl (by decide) (by decide)).2⟩

/-- C6: when the connection itself fails (unreachable database, failed
login, inaccessible database), `list_resources` returns the empty list
and raises nothing, while `read_resource` on a well-formed address of
the same database raises the reported `Database error`. -/
theorem unreachable_db_degrades_listing_raises_read (db : DB) (e uri : String)
    (hc : db.connectErr = some e) (hu : pyStartsWith uri "mssql://" = true) :
    (list_resources db).1 = .ok [] ∧
    (read_resource db uri).1 = .error ("Database error: " ++ e) := by
  constructor
  · rw [list_resources_connect_error db e hc]
  · rw [read_resource_connect_error db uri e hu hc]

/-- The driver used in the C6 witness: the connect handshake fails. -/
def dbDownW : DB := ⟨some "Login timeout expired", fun _ => .error "down"⟩

/-- C6 witness on an unreachable database. -/
theorem unreachable_db_degrades_listing_raises_read_witness :
    dbDownW.connectErr = some "Login timeout expired" ∧
    (list_resources dbDownW).1 = .ok [] ∧
    (read_resource dbDownW "mssql://t/data").1
      = .error "Database error: Login timeout expired" :=
  ⟨rfl,
   (unreachable_db_degrades_listing_raises_read dbDownW
      "Login timeout expired" "mssql://t/data" rfl (by decide)).1,
   (unreachable_db_degrades_listing_raises_read dbDownW
      "Login timeout expired" "mssql://t/data" rfl (by decide)).2⟩

/-- The driver refuting C7 as stated: a conforming `TOP 100` result —
only 100 rows — whose cells stringify with an embedded newline. -/
def dbNewlineRows : DB :=
  ⟨none, fun _ => .ok ⟨["c"], List.replicate 100 [Cell.vStr "x\ny"], -1⟩⟩

set_option maxRecDepth 8000 in
/-- C7 counterexample: the driver honours the `TOP 100` cap (the
result has exactly 100 rows), yet the string `read_resource` returns
consists of 201 newline-separated lines — not at most 101 — because
each cell stringification carries a newline. -/
theorem read_resource_line_cap_cex :
    (dbNewlineRows.exec "SELECT TOP 100 * FROM t").toOption.map
        (fun r => r.rows.length) = some 100 ∧
    (read_resource dbNewlineRows "mssql://t/data").1.toOption.map
        (fun s => (splitCh '\n' s.data).length) = some 201 ∧
    ¬ (201 ≤ 101) :=
  ⟨by decide, by decide, by decide⟩

/-- C7 (amended): on a valid address with a successful row-capped
select, `read_resource` returns the tabular preview; provided no
column name and no cell stringification contains a newline, the
newline-separated lines of that string are exactly the comma-joined
header followed by one serialized line per row — hence the first line
equals the comma-joined column names and, with the cap of 100 rows,
there are at most 101 lines in total. -/
theorem read_resource_line_cap (db : DB) (uri : String) (r : QueryResult)
    (hu : pyStartsWith uri "mssql://" = true) (hc : db.connectErr = none)
    (hx : db.exec ("SELECT TOP 100 * FROM " ++ firstSeg (pyFrom uri 8)) = .ok r)
    (hcap : r.rows.length ≤ 100)
    (hcols : ∀ col ∈ r.columns, '\n' ∉ col.data)
    (hcells : ∀ row ∈ r.rows, ∀ x ∈ row, '\n' ∉ (Cell.pyStr x).data) :
    (read_resource db uri).1 = .ok (tabularText r) ∧
    (splitCh '\n' (tabularText r).data).map String.mk
      = pyJoin "," r.columns :: r.rows.map serializeRow ∧
    (splitCh '\n' (tabularText r).data).length = 1 + r.rows.length ∧
    (splitCh '\n' (tabularText r).data).length ≤ 101 := by
  have hdr : '\n' ∉ (pyJoin "," r.columns).data :=
    not_mem_pyJoin '\n' "," (by decide) r.columns hcols
  have hrows : ∀ s ∈ r.rows.map serializeRow, '\n' ∉ s.data := by
    intro s hs
    rcases List.mem_map.mp hs with ⟨row, hrow, hser⟩
    rw [← hser]
    refine not_mem_pyJoin '\n' "," (by decide) (row.map Cell.pyStr) ?_
    intro x hxm
    rcases List.mem_map.mp hxm with ⟨cl, hcl, hps⟩
    rw [← hps]
    exact hcells row hrow cl hcl
  have hlines : splitCh '\n' (tabularText r).data
      = (pyJoin "," r.columns :: r.rows.map serializeRow).map String.data := by
    refine splitCh_pyJoin '\n' "\n" (by decide) _ (by simp) ?_
    intro x hxm
    rcases List.mem_cons.mp hxm with h | h
    · rw [h]; exact hdr
    · exact hrows x h
  refine ⟨?_, ?_, ?_, ?_⟩
  · rw [read_resource_ok db uri r hu hc hx]
  · rw [hlines, List.map_map]
    simp [mk_data, Function.comp]
  · rw [hlines]
    simp
    omega
  · rw [hlines]
    simp
    omega

/-- The result set used in the C7 witness. -/
def qrPrevW : QueryResult :=
  ⟨["Id", "Name"],
   [[Cell.vInt 1, Cell.vStr "Ann"], [Cell.vInt 2, Cell.vStr "Bo"]], -1⟩

/-- The driver used in the C7 witness. -/
def dbPrevW : DB :=
  ⟨none, fun q =>
    if q = "SELECT TOP 100 * FROM Customers" then .ok qrPrevW
    else .error "boom"⟩

/-- C7 witness on a two-row, newline-free table. -/
theorem read_resource_line_cap_witness :
    dbPrevW.exec "SELECT TOP 100 * FROM Customers" = .ok qrPrevW ∧
    (read_resource dbPrevW "mssql://Customers/data").1 = .ok (tabularText qrPrevW) ∧
    (splitCh '\n' (tabularText qrPrevW).data).length ≤ 101 :=
  ⟨by decide,
   (read_resource_line_cap dbPrevW "mssql://Customers/data" qrPrevW
      (by decide) rfl (by decide) (by decide) (by decide) (by decide)).1,
   (read_resource_line_cap dbPrevW "mssql://Customers/data" qrPrevW
      (by decide) rfl (by decide) (by decide) (by decide) (by decide)).2.2.2⟩

/-- The environment refuting C8: the password consists entirely of
special characters. -/
def env8 : String → Option String := fun v =>
  if v = "MSSQL_USER" then some "u"
  else if v = "MSSQL_PASSWORD" then some "!!!!!"
  else if v = "MSSQL_DATABASE" then some "d"
  else none

set_option maxRecDepth 4000 in
/-- C8 counterexample: with the password `"!!!!!"` (five special
characters), the full password value occurs verbatim inside a log
message produced by configuration resolution — the special-characters
part of the password-format debug line — even though the displayable
config object does hold only the redacted placeholder. -/
theorem password_appears_in_log_cex :
    (get_db_config env8).2.any (fun l => strOccurs "!!!!!" l) = true ∧
    (get_db_config env8).1.toOption.map (fun p => p.1.password)
      = some "********" :=
  ⟨by decide, by decide⟩

/-- C8 (amended): the displayable config object always retains only
the fixed placeholder `"********"` for the password; the
configuration-resolution log, however, contains the password-format
debug message — built from the password's first two characters, last
two characters and all of its special characters — whenever the
cleaned password has more than four characters, so password-derived
text (the full password, when no character is alphanumeric) can appear
in the log output. -/
theorem password_redacted_in_config_but_hinted_in_log
    (env : String → Option String) :
    (∀ cfg cs logs, get_db_config env = (.ok (cfg, cs), logs) →
      cfg.password = "********") ∧
    (∀ pw, clean_env_var env "MSSQL_PASSWORD" none = some pw →
      4 < pw.data.length →
      passwordHintMsg pw ∈ (get_db_config env).2) := by
  constructor
  · intro cfg cs logs h
    simp only [get_db_config] at h
    split at h
    · simp only [Prod.mk.injEq, Except.ok.injEq] at h
      obtain ⟨⟨hcfg, _⟩, _⟩ := h
      rw [← hcfg]
    · simp at h
  · intro pw hpw hlen
    simp only [get_db_config, hpw]
    rw [if_pos hlen]
    split <;> simp [passwordHintMsg]

/-- C8 witness: the amended claim applied to `env8`. -/
theorem password_redacted_in_config_but_hinted_in_log_witness :
    clean_env_var env8 "MSSQL_PASSWORD" none = some "!!!!!" ∧
    passwordHintMsg "!!!!!" ∈ (get_db_config env8).2 :=
  ⟨by decide,
   (password_redacted_in_config_but_hinted_in_log env8).2 "!!!!!"
     (by decide) (by decide)⟩

/-- The environment refuting C9: the TLS trust flag arrives wrapped in
single quotes. -/
def env9 : String → Option String := fun v =>
  if v = "MSSQL_USER" then some "u"
  else if v = "MSSQL_PASSWORD" then some "secret7"
  else if v = "MSSQL_DATABASE" then some "d"
  else if v = "TrustServerCertificate" then some "\x27no\x27"
  else none

set_option maxRecDepth 8000 in
/-- C9 counterexample: with `TrustServerCertificate` set to the quoted
value `'no'`, the connection string `get_db_config` builds contains
`TrustServerCertificate='no'` — the quotes are NOT stripped — and does
not contain the stripped form `TrustServerCertificate=no` followed by
the separator, so the TLS trust flag is used with its enclosing quotes
intact. -/
theorem quotes_not_stripped_cex :
    (get_db_config env9).1.toOption.map
        (fun p => (strOccurs "TrustServerCertificate=\x27no\x27" p.2,
                   strOccurs "TrustServerCertificate=no;" p.2))
      = some (true, false) :=
  by decide

/-- C9 (amended): one layer of enclosing quote characters is stripped
from the six settings read through `clean_env_var` — driver name,
host, port, user, password and database name — while the TLS trust
flag, the encryption flag and the two timeouts are taken verbatim from
the environment (`os.getenv`), quotes included, when the connection
string is assembled. -/
theorem quote_stripping_extent (env : String → Option String) :
    (∀ var dflt v, env var = some v → v ≠ "" →
      pyStartsWith v "\x27" = true → pyEndsWith v "\x27" = true →
      clean_env_var env var dflt = some (pyStrip1 v)) ∧
    (∀ u pw dbn,
      clean_env_var env "MSSQL_USER" none = some u → u ≠ "" →
      clean_env_var env "MSSQL_PASSWORD" none = some pw → pw ≠ "" →
      clean_env_var env "MSSQL_DATABASE" none = some dbn → dbn ≠ "" →
      (get_db_config env).1 = .ok
        ({driver := optStr (clean_env_var env "MSSQL_DRIVER" (some defaultDriver)),
          server := optStr (clean_env_var env "MSSQL_HOST" (some "localhost"))
            ++ ":" ++ optStr (clean_env_var env "MSSQL_PORT" (some "1433")),
          user := u, database := dbn, password := "********"},
         pyJoin ";"
           ["Driver=\x7b"
              ++ optStr (clean_env_var env "MSSQL_DRIVER" (some defaultDriver))
              ++ "\x7d",
            "Server=" ++ optStr (clean_env_var env "MSSQL_HOST" (some "localhost"))
              ++ "," ++ optStr (clean_env_var env "MSSQL_PORT" (some "1433")),
            "Database=" ++ dbn,
            "UID=" ++ u,
            "PWD=" ++ pw,
            "TrustServerCertificate=" ++ getenvD env "TrustServerCertificate" "yes",
            "Encrypt=" ++ getenvD env "Encrypt" "yes",
            "Connection Timeout=" ++ getenvD env "ConnectionTimeout" "60",
            "Login Timeout=" ++ getenvD env "LoginTimeout" "60",
            "MARS_Connection=yes"])) := by
  constructor
  · intro var dflt v hv hne h1 h2
    simp [clean_env_var, hv, hne, h1, h2]
  · intro u pw dbn hu hune hpw hpwne hdbn hdbne
    have t1 := truthy_of_ne u hune
    have t2 := truthy_of_ne pw hpwne
    have t3 := truthy_of_ne dbn hdbne
    simp [get_db_config, hu, hpw, hdbn, t1, t2, t3, optStr]

set_option maxRecDepth 8000 in
/-- C9 witness: the amended claim applied to `env9` — the quoted TLS
flag would be stripped by `clean_env_var`, but the connection string
embeds its raw quoted value. -/
theorem quote_stripping_extent_witness :
    clean_env_var env9 "TrustServerCertificate" (some "yes")
      = some (pyStrip1 "\x27no\x27") ∧
    (get_db_config env9).1 = .ok
      ({driver := optStr (clean_env_var env9 "MSSQL_DRIVER" (some defaultDriver)),
        server := optStr (clean_env_var env9 "MSSQL_HOST" (some "localhost"))
          ++ ":" ++ optStr (clean_env_var env9 "MSSQL_PORT" (some "1433")),
        user := "u", database := "d", password := "********"},
       pyJoin ";"
         ["Driver=\x7b"
            ++ optStr (clean_env_var env9 "MSSQL_DRIVER" (some defaultDriver))
            ++ "\x7d",
          "Server=" ++ optStr (clean_env_var env9 "MSSQL_HOST" (some "localhost"))
            ++ "," ++ optStr (clean_env_var env9 "MSSQL_PORT" (some "1433")),
          "Database=" ++ "d",
          "UID=" ++ "u",
          "PWD=" ++ "secret7",
          "TrustServerCertificate=" ++ getenvD env9 "TrustServerCertificate" "yes",
          "Encrypt=" ++ getenvD env9 "Encrypt" "yes",
          "Connection Timeout=" ++ getenvD env9 "ConnectionTimeout" "60",
          "Login Timeout=" ++ getenvD env9 "LoginTimeout" "60",
          "MARS_Connection=yes"]) :=
  ⟨(quote_stripping_extent env9).1 "TrustServerCertificate" (some "yes")
      "\x27no\x27" (by decide) (by decide) (by decide) (by decide),
   (quote_stripping_extent env9).2 "u" "secret7" "d"
      (by decide) (by decide) (by decide) (by decide) (by decide) (by decide)⟩

/-- The driver refuting C10 as stated: a one-column table whose single
cell stringifies with a newline and no comma. -/
def dbNlCellW : DB :=
  ⟨none, fun _ => .ok ⟨["c"], [[Cell.vStr "x\ny"]], -1⟩⟩

/-- C10 counterexample: the cell `"x\ny"` stringifies with a newline,
yet its serialized row line has comma-separated field count `1` —
exactly the single-column header's count, not a differing one; the
unescaped newline instead spills the row across output lines of the
string `read_resource` actually returns. -/
theorem unescaped_serialization_cex :
    ('\n' ∈ (Cell.pyStr (Cell.vStr "x\ny")).data) ∧
    (splitCh ',' (serializeRow [Cell.vStr "x\ny"]).data).length
      = (["c"] : List String).length ∧
    (read_resource dbNlCellW "mssql://t/data").1
      = .ok (pyJoin "\n" [pyJoin "," ["c"], serializeRow [Cell.vStr "x\ny"]]) :=
  ⟨by decide, by decide, by decide⟩

/-- C10 (amended): `read_resource` serializes each result row by
applying Python default stringification to every cell and joining with
commas, with no quoting or escaping (the SELECT branch of `call_tool`
emits the same `tabularText`); consequently a cell stringification
containing a comma makes that row line's comma-separated field count
exceed the header's column count, while a cell stringification
containing a newline splits the row across at least two
newline-separated lines (leaving the comma count unchanged when the
cell has no comma). -/
theorem unescaped_serialization (db : DB) (uri : String) (r : QueryResult)
    (hu : pyStartsWith uri "mssql://" = true) (hc : db.connectErr = none)
    (hx : db.exec ("SELECT TOP 100 * FROM " ++ firstSeg (pyFrom uri 8)) = .ok r) :
    (read_resource db uri).1 = .ok (tabularText r) ∧
    tabularText r = pyJoin "\n" (pyJoin "," r.columns :: r.rows.map serializeRow) ∧
    (∀ row : List Cell, serializeRow row = pyJoin "," (row.map Cell.pyStr)) ∧
    (∀ row : List Cell, row.length = r.columns.length →
      (∃ x ∈ row, ',' ∈ (Cell.pyStr x).data) →
      r.columns.length < (splitCh ',' (serializeRow row).data).length) ∧
    (∀ row : List Cell, (∃ x ∈ row, '\n' ∈ (Cell.pyStr x).data) →
      2 ≤ (splitCh '\n' (serializeRow row).data).length) := by
  refine ⟨?_, rfl, fun _ => rfl, ?_, ?_⟩
  · rw [read_resource_ok db uri r hu hc hx]
  · rintro row hlen ⟨x, hxm, hxc⟩
    have hne : row.map Cell.pyStr ≠ [] := by
      intro h
      rw [List.map_eq_nil_iff] at h
      rw [h] at hxm
      cases hxm
    have hcount := countCh_pyJoin ',' "," (by decide) (row.map Cell.pyStr) hne
    have hmem1 : Cell.pyStr x ∈ row.map Cell.pyStr := List.mem_map_of_mem _ hxm
    have hmem2 : countCh ',' (Cell.pyStr x).data
        ∈ (row.map Cell.pyStr).map (fun s => countCh ',' s.data) :=
      List.mem_map_of_mem _ hmem1
    have hle : countCh ',' (Cell.pyStr x).data
        ≤ ((row.map Cell.pyStr).map (fun s => countCh ',' s.data)).sum :=
      List.single_le_sum (fun _ _ => Nat.zero_le _) _ hmem2
    have hpos : 0 < countCh ',' (Cell.pyStr x).data := countCh_pos _ _ hxc
    have hlen2 : (row.map Cell.pyStr).length = row.length := List.length_map _ _
    rw [serializeRow, length_splitCh]
    omega
  · rintro row ⟨x, hxm, hxn⟩
    have hmem : '\n' ∈ (serializeRow row).data :=
      mem_pyJoin_data '\n' "," (row.map Cell.pyStr) (Cell.pyStr x)
        (List.mem_map_of_mem _ hxm) hxn
    have hpos : 0 < countCh '\n' (serializeRow row).data := countCh_pos _ _ hmem
    rw [length_splitCh]
    omega

/-- The driver used in the C10 witness: one row whose first cell
stringifies with an embedded comma. -/
def dbCommaW : DB :=
  ⟨none, fun _ => .ok ⟨["a", "b"], [[Cell.vStr "x,y", Cell.vStr "z"]], -1⟩⟩

/-- C10 witness: with cell `"x,y"` in a two-column row the serialized
line splits into three comma-separated fields, exceeding the
two-column header, on the output `read_resource` actually returns. -/
theorem unescaped_serialization_witness :
    (read_resource dbCommaW "mssql://t/data").1
      = .ok (tabularText ⟨["a", "b"], [[Cell.vStr "x,y", Cell.vStr "z"]], -1⟩) ∧
    (2 : Nat) < (splitCh ','
      (serializeRow [Cell.vStr "x,y", Cell.vStr "z"]).data).length :=
  ⟨(unescaped_serialization dbCommaW "mssql://t/data"
      ⟨["a", "b"], [[Cell.vStr "x,y", Cell.vStr "z"]], -1⟩
      (by decide) rfl (by decide)).1,
   (unescaped_serialization dbCommaW "mssql://t/data"
      ⟨["a", "b"], [[Cell.vStr "x,y", Cell.vStr "z"]], -1⟩
      (by decide) rfl (by decide)).2.2.2.1
     [Cell.vStr "x,y", Cell.vStr "z"] (by decide)
     ⟨Cell.vStr "x,y", by decide, by decide⟩⟩

end MssqlMcp
